import Mathlib

/-!
Verification of the widget-action and client-tool dispatch bridge of
the-quizzler (src/components/ChatKitPanel.tsx).

The bridge is single-threaded and event-driven; each handler is embedded
as a pure function from its inputs (and the relevant piece of component
state) to its return value together with an explicit trace of its side
effects (outbound sendCustomAction calls, theme-callback invocations,
console log/warn/error entries, setError updates).
-/

namespace Quizzler

set_option linter.unusedVariables false

/-- Model of an untyped JavaScript runtime value (the TypeScript type
unknown), as carried by SDK event payloads. An Error instance is
represented by its message field, which is the only part the code reads. -/
inductive Value : Type where
  | str (s : String)
  | num (n : Int)
  | boolean (b : Bool)
  | null
  | undefined
  | obj (fields : List (String × Value))
  | arr (elems : List Value)
  | errorObj (message : String)

/-- The JavaScript strict-equality test of an unknown value against a
string literal (requested === "light" at line 96) is decidable. -/
instance (v : Value) (s : String) : Decidable (v = Value.str s) :=
  match v with
  | Value.str t =>
    if h : t = s then isTrue (by rw [h]) else
      isFalse (fun hh => h (Value.str.inj hh))
  | Value.num _ => isFalse (fun h => Value.noConfusion h)
  | Value.boolean _ => isFalse (fun h => Value.noConfusion h)
  | Value.null => isFalse (fun h => Value.noConfusion h)
  | Value.undefined => isFalse (fun h => Value.noConfusion h)
  | Value.obj _ => isFalse (fun h => Value.noConfusion h)
  | Value.arr _ => isFalse (fun h => Value.noConfusion h)
  | Value.errorObj _ => isFalse (fun h => Value.noConfusion h)

/-- Property access on a JavaScript record (Record of string to unknown):
the first binding of the key, or undefined when the key is absent. -/
def recordGet (fields : List (String × Value)) (key : String) : Value :=
  match fields.find? (fun kv => kv.fst = key) with
  | some kv => kv.snd
  | none => Value.undefined

/-- A client-tool invocation event: ChatKitPanel.tsx lines 86-89. -/
structure ToolInvocation : Type where
  name : String
  params : List (String × Value)

/-- The structured result returned to the widget call site. -/
structure ToolResult : Type where
  success : Bool
  deriving DecidableEq

/-- Return value of one onClientTool call together with its side-effect
trace: the arguments of each onThemeRequest invocation in order, and the
console.log entries made. -/
structure DispatchOutcome : Type where
  result : ToolResult
  themeCalls : List Value
  logs : List String

/-- The client-tool dispatcher, ChatKitPanel.tsx lines 86-104. The isDev
flag (line 23) is the build-mode parameter d. -/
def onClientTool (d : Bool) (invocation : ToolInvocation) : DispatchOutcome :=
  let devLogs : List String :=
    if d then ["[ChatKitPanel] Client tool invocation: " ++ invocation.name] else []
  if invocation.name = "switch_theme" then
    let requested := recordGet invocation.params "theme"
    if requested = Value.str "light" ∨ requested = Value.str "dark" then
      { result := { success := true }, themeCalls := [requested], logs := devLogs }
    else
      { result := { success := false }, themeCalls := [], logs := devLogs }
  else
    { result := { success := false }, themeCalls := [], logs := devLogs }

/-- The same control flow written in an exception monad: every statement
of lines 86-104 is a non-throwing step, so the only way a run can end is
by returning a DispatchOutcome; Except.error would mark an uncaught
throw, and no branch produces one. -/
def onClientToolE (d : Bool) (invocation : ToolInvocation) :
    Except String DispatchOutcome := do
  let devLogs : List String :=
    if d then ["[ChatKitPanel] Client tool invocation: " ++ invocation.name] else []
  if invocation.name = "switch_theme" then
    let requested := recordGet invocation.params "theme"
    if requested = Value.str "light" ∨ requested = Value.str "dark" then
      return { result := { success := true }, themeCalls := [requested], logs := devLogs }
    else
      return { result := { success := false }, themeCalls := [], logs := devLogs }
  else
    return { result := { success := false }, themeCalls := [], logs := devLogs }

/-- A widget action event payload: ChatKitPanel.tsx line 36. -/
structure Action : Type where
  type : String
  payload : Option (List (String × Value))

/-- The widget kind of the item an action originated from (Widgets.Card
or Widgets.ListView), line 37. -/
inductive WidgetKind : Type where
  | card
  | listView
  deriving DecidableEq

/-- The widget item reference accompanying an action, line 37. -/
structure WidgetItem : Type where
  id : String
  widget : WidgetKind

/-- Side-effect trace of one handleWidgetAction call: the arguments of
each chatkit.sendCustomAction call, the console.log entries, and the
console.warn entries. -/
structure RouterOutcome : Type where
  sends : List (Action × String)
  logs : List String
  warns : List String

/-- The action router, ChatKitPanel.tsx lines 34-57. chatkitReady models
whether chatkitRef.current is non-null at line 39. -/
def handleWidgetAction (chatkitReady : Bool) (action : Action)
    (widgetItem : WidgetItem) : RouterOutcome :=
  if chatkitReady = false then
    { sends := [], logs := [], warns := ["ChatKit not initialized"] }
  else
    let received := "[ChatKitPanel] Widget action received: " ++ action.type
    if action.type = "quiz.submit" ∨ action.type = "quiz.reset" then
      { sends := [(action, widgetItem.id)],
        logs := [received, "[ChatKitPanel] Sending " ++ action.type ++ " to server"],
        warns := [] }
    else
      { sends := [],
        logs := [received, "[ChatKitPanel] Unhandled action type: " ++ action.type],
        warns := [] }

/-- Effect of one onError call, ChatKitPanel.tsx lines 108-113: the value
of the error state after the call and the console.error payloads. -/
structure ErrorOutcome : Type where
  newError : Option String
  consoleErrors : List Value

/-- The SDK error-event handler, lines 108-113: always logs the payload;
calls setError with err.message only when err is an Error instance. -/
def onError (prev : Option String) (err : Value) : ErrorOutcome :=
  { newError :=
      match err with
      | Value.errorObj m => some m
      | _ => prev,
    consoleErrors := [err] }

/-- Modelled from the spec: the ErrorOverlay component is imported at
ChatKitPanel.tsx line 14 but src/components/ErrorOverlay.tsx is not among
the available sources. Per the spec section 4.3, the Error Surface
renders nothing when error is null; when error is non-null it renders the
error text, falling back to fallbackMessage only for a generic-message
design, which this integration does not use (fallbackMessage is null at
line 132), so the raw error string is shown verbatim. The returned value
is the displayed text. -/
def ErrorOverlay (error : Option String) (fallbackMessage : Option String) :
    Option String :=
  match error with
  | none => none
  | some e => some e

/-- The onRetry prop handed to ErrorOverlay at ChatKitPanel.tsx line 133:
null, so the overlay renders no retry control and the bridge wires no
error-clearing action. -/
def panelOnRetry : Option Unit := none

/-- The events the bridge controller wires to handlers at session
construction, ChatKitPanel.tsx lines 84, 86, 105, 108, 114. -/
inductive BridgeEvent : Type where
  | widgetAction (chatkitReady : Bool) (action : Action) (item : WidgetItem)
  | clientTool (d : Bool) (inv : ToolInvocation)
  | sdkError (err : Value)
  | sdkLog (name : String) (data : Option (List (String × Value)))
  | responseEnd

/-- Value of the error state (line 31) after one inbound event is
handled. setError is called only inside the onError handler; the other
handlers run without touching it. -/
def bridgeErrorAfter (prev : Option String) : BridgeEvent → Option String
  | BridgeEvent.widgetAction r a w =>
      let _ := handleWidgetAction r a w
      prev
  | BridgeEvent.clientTool d inv =>
      let _ := onClientTool d inv
      prev
  | BridgeEvent.sdkError err => (onError prev err).newError
  | BridgeEvent.sdkLog _ _ => prev
  | BridgeEvent.responseEnd => prev



/-- C1: for every tool invocation named switch_theme whose theme parameter
is exactly the string light or exactly the string dark, the dispatcher
returns success true and invokes the theme callback exactly once, with
exactly that value. -/
theorem switch_theme_valid_dispatch (d : Bool) (inv : ToolInvocation)
    (hname : inv.name = "switch_theme")
    (hval : recordGet inv.params "theme" = Value.str "light" ∨
      recordGet inv.params "theme" = Value.str "dark") :
    (onClientTool d inv).result = { success := true } ∧
    (onClientTool d inv).themeCalls = [recordGet inv.params "theme"] := by
  rcases hval with h | h <;> simp [onClientTool, hname, h]

/-- Witness for C1 at the concrete invocation switch_theme with theme dark. -/
theorem switch_theme_valid_dispatch_witness :
    (onClientTool true
        { name := "switch_theme", params := [("theme", Value.str "dark")] }).result
      = { success := true } ∧
    (onClientTool true
        { name := "switch_theme", params := [("theme", Value.str "dark")] }).themeCalls
      = [Value.str "dark"] := by
  have hr : recordGet [("theme", Value.str "dark")] "theme" = Value.str "dark" := by decide
  have h := switch_theme_valid_dispatch true
    { name := "switch_theme", params := [("theme", Value.str "dark")] } rfl (Or.inr hr)
  exact ⟨h.1, by rw [h.2, hr]⟩

/-- C2: for every tool invocation that is not a switch_theme invocation
with a theme parameter equal to light or dark, the dispatcher returns
success false, never invokes the theme callback, and raises no error
(the exception-monad run returns ok). -/
theorem dispatch_declines_invalid (d : Bool) (inv : ToolInvocation)
    (h : ¬ (inv.name = "switch_theme" ∧
      (recordGet inv.params "theme" = Value.str "light" ∨
        recordGet inv.params "theme" = Value.str "dark"))) :
    (onClientTool d inv).result = { success := false } ∧
    (onClientTool d inv).themeCalls = [] ∧
    onClientToolE d inv = Except.ok (onClientTool d inv) := by
  by_cases hn : inv.name = "switch_theme"
  · have hv : ¬ (recordGet inv.params "theme" = Value.str "light" ∨
        recordGet inv.params "theme" = Value.str "dark") := fun hv => h ⟨hn, hv⟩
    simp [onClientTool, onClientToolE, hn, hv]
    rfl
  · simp [onClientTool, onClientToolE, hn]
    rfl

/-- Witness for C2 at the concrete invocation of an unknown tool name. -/
theorem dispatch_declines_invalid_witness :
    (onClientTool false { name := "other_tool", params := [] }).result
      = { success := false } ∧
    (onClientTool false { name := "other_tool", params := [] }).themeCalls = [] ∧
    onClientToolE false { name := "other_tool", params := [] }
      = Except.ok (onClientTool false { name := "other_tool", params := [] }) :=
  dispatch_declines_invalid false { name := "other_tool", params := [] }
    (fun hc => absurd hc.1 (by decide))

/-- C3: with an initialized session handle, every action whose type is
quiz.submit or quiz.reset produces exactly one sendCustomAction call
carrying the action value and the widget-item id unchanged. -/
theorem router_forwards_whitelisted (a : Action) (w : WidgetItem)
    (h : a.type = "quiz.submit" ∨ a.type = "quiz.reset") :
    (handleWidgetAction true a w).sends = [(a, w.id)] := by
  rcases h with h | h <;> simp [handleWidgetAction, h]

/-- Witness for C3 at the concrete quiz.submit action on widget item w1. -/
theorem router_forwards_whitelisted_witness :
    (handleWidgetAction true
        { type := "quiz.submit",
          payload := some [("answers", Value.arr [Value.num 1, Value.num 2, Value.num 3])] }
        { id := "w1", widget := WidgetKind.card }).sends
      = [({ type := "quiz.submit",
            payload := some [("answers", Value.arr [Value.num 1, Value.num 2, Value.num 3])] },
          "w1")] :=
  router_forwards_whitelisted
    { type := "quiz.submit",
      payload := some [("answers", Value.arr [Value.num 1, Value.num 2, Value.num 3])] }
    { id := "w1", widget := WidgetKind.card } (Or.inl rfl)

/-- C4: with an initialized session handle, every action whose type is
outside the whitelist produces zero sendCustomAction calls and a console
log entry naming the unknown type, and no error is raised. -/
theorem router_drops_unknown (a : Action) (w : WidgetItem)
    (h1 : a.type ≠ "quiz.submit") (h2 : a.type ≠ "quiz.reset") :
    (handleWidgetAction true a w).sends = [] ∧
    ("[ChatKitPanel] Unhandled action type: " ++ a.type)
      ∈ (handleWidgetAction true a w).logs := by
  have hw : ¬ (a.type = "quiz.submit" ∨ a.type = "quiz.reset") := by tauto
  simp [handleWidgetAction, hw]

/-- Witness for C4 at the concrete action quiz.unknown. -/
theorem router_drops_unknown_witness :
    (handleWidgetAction true { type := "quiz.unknown", payload := none }
        { id := "w1", widget := WidgetKind.card }).sends = [] ∧
    ("[ChatKitPanel] Unhandled action type: " ++ "quiz.unknown")
      ∈ (handleWidgetAction true { type := "quiz.unknown", payload := none }
          { id := "w1", widget := WidgetKind.card }).logs :=
  router_drops_unknown { type := "quiz.unknown", payload := none }
    { id := "w1", widget := WidgetKind.card } (by decide) (by decide)

/-- C5 counterexample: an inbound SDK error event whose payload is the
plain string boom (not an Error instance) stores nothing in the error
state, so no ErrorShown transition happens and the Error Surface still
renders nothing. -/
theorem error_event_string_payload_not_stored :
    (onError none (Value.str "boom")).newError = none ∧
    ErrorOverlay (onError none (Value.str "boom")).newError none = none :=
  ⟨rfl, rfl⟩

/-- C5 amended: for every inbound SDK error event whose payload is an
Error instance, the handler stores its message string in the error state
and the Error Surface displays exactly that text; the handler updates
only the error state, so the session is not torn down. -/
theorem error_event_stored_and_displayed (prev : Option String) (m : String) :
    (onError prev (Value.errorObj m)).newError = some m ∧
    ErrorOverlay (onError prev (Value.errorObj m)).newError none = some m :=
  ⟨rfl, rfl⟩

/-- C6: the dispatcher is total: on every invocation the exception-monad
run of the dispatcher returns ok with a ToolResult (no uncaught throw,
no unresolved call), and the success flag is fully determined by the
invocation. -/
theorem onClientTool_total (d : Bool) (inv : ToolInvocation) :
    onClientToolE d inv = Except.ok (onClientTool d inv) ∧
    ((onClientTool d inv).result.success = true ↔
      (inv.name = "switch_theme" ∧
        (recordGet inv.params "theme" = Value.str "light" ∨
          recordGet inv.params "theme" = Value.str "dark"))) := by
  by_cases hn : inv.name = "switch_theme"
  · by_cases hv : (recordGet inv.params "theme" = Value.str "light" ∨
        recordGet inv.params "theme" = Value.str "dark") <;>
      simp [onClientTool, onClientToolE, hn, hv] <;> rfl
  · simp [onClientTool, onClientToolE, hn]
    rfl

/-- C7: when the session handle is not initialized, every action event,
of any type, produces no sendCustomAction call, a single console warning,
and no error. -/
theorem router_noop_when_not_ready (a : Action) (w : WidgetItem) :
    (handleWidgetAction false a w).sends = [] ∧
    (handleWidgetAction false a w).warns = ["ChatKit not initialized"] ∧
    (handleWidgetAction false a w).logs = [] :=
  ⟨rfl, rfl, rfl⟩

/-- C8: the onRetry prop is null in this integration, and once the error
state holds a string, no bridge event handler resets it to null: after
any inbound event the error state is still non-null. -/
theorem error_state_never_cleared :
    panelOnRetry = none ∧
    ∀ (m : String) (e : BridgeEvent),
      (bridgeErrorAfter (some m) e).isSome = true := by
  refine ⟨rfl, fun m e => ?_⟩
  cases e with
  | widgetAction r a w => rfl
  | clientTool d inv => rfl
  | sdkError err => cases err <;> rfl
  | sdkLog n data => rfl
  | responseEnd => rfl

/-- C9: the build-mode flag has no behavioral effect: for every
invocation, the dispatcher result and the sequence of theme-callback
invocations are identical in a development run and a production run. -/
theorem dev_logging_no_behavioral_effect (inv : ToolInvocation) :
    (onClientTool true inv).result = (onClientTool false inv).result ∧
    (onClientTool true inv).themeCalls = (onClientTool false inv).themeCalls := by
  by_cases hn : inv.name = "switch_theme"
  · by_cases hv : (recordGet inv.params "theme" = Value.str "light" ∨
        recordGet inv.params "theme" = Value.str "dark") <;>
      simp [onClientTool, hn, hv]
  · simp [onClientTool, hn]

/-- C10: an inbound error event whose payload is not an Error instance
leaves the error state unchanged while the payload is still logged; when
the payload is an Error instance, the stored string is its message
field. -/
theorem onError_frame (prev : Option String) (err : Value) :
    ((∀ m, err ≠ Value.errorObj m) → (onError prev err).newError = prev) ∧
    (∀ m, err = Value.errorObj m → (onError prev err).newError = some m) ∧
    err ∈ (onError prev err).consoleErrors := by
  refine ⟨?_, ?_, ?_⟩
  · intro h
    cases err <;> first | rfl | exact absurd rfl (h _)
  · intro m hm
    subst hm
    rfl
  · simp [onError]

/-- Witness for C10 at a string payload and at an Error-instance payload. -/
theorem onError_frame_witness :
    (onError (some "old") (Value.str "oops")).newError = some "old" ∧
    (onError none (Value.errorObj "bad")).newError = some "bad" :=
  ⟨(onError_frame (some "old") (Value.str "oops")).1
      (fun m h => Value.noConfusion h),
    (onError_frame none (Value.errorObj "bad")).2.1 "bad" rfl⟩

end Quizzler
